import Mathlib

/-!
Verification of the LaTa Taskfile launcher (src/lata/main module) via a
shallow embedding. Directories are abstract strings; the filesystem is a
boolean existence oracle over candidate file paths; interactive prompts are
oracles fed by explicit response values; the loop over user interaction is
driven by a finite script. Each definition mirrors the corresponding Python
function of the source module.
-/

namespace LaTa

/-- Abstract directory name (the model of a pathlib directory). -/
abbrev Dir := String

/-- A candidate file path: a directory plus a file name (pathlib `dir / name`). -/
structure FPath where
  dir : Dir
  name : String
  deriving DecidableEq, Repr

/-- The candidate file `d / "Taskfile.yml"` built at each search location. -/
def taskfile (d : Dir) : FPath := ⟨d, "Taskfile.yml"⟩

/-- Environment of the Locator: the optional LATA_CALLER_DIR hint
(`none` also models the env var set to the empty string, which Python treats
as unset via truthiness), the chain `[Path.cwd()] + list(Path.cwd().parents)`,
the home directory, the package directory, and the filesystem existence oracle. -/
structure SearchEnv where
  callerDir : Option Dir
  cwdChain : List Dir
  homeDir : Dir
  packageDir : Dir
  fsExists : FPath → Bool

/-- The `for parent in [current_dir] + list(current_dir.parents)` loop of
`_find_taskfile` and `show_search_info`: append each directory's Taskfile to
the accumulator and stop as soon as the accumulator reaches `bound` entries
(the `if len(search_paths) >= bound: break` after the append). In
`_find_taskfile` the bound is 6 on an accumulator that already holds the
caller-hint entry when the hint is set; in `show_search_info` the bound is 5
on a fresh accumulator. -/
def chainLoop (bound : Nat) : List FPath → List Dir → List FPath
  | acc, [] => acc
  | acc, d :: rest =>
    let acc2 := acc ++ [taskfile d]
    if bound ≤ acc2.length then acc2 else chainLoop bound acc2 rest

/-- The full candidate list built by `TaskfileLauncher._find_taskfile`:
caller-hint entry (if the hint is set), then the cwd chain bounded so that the
whole accumulator holds at most 6 entries, then home, then the package file. -/
def search_paths (env : SearchEnv) : List FPath :=
  let sp : List FPath :=
    match env.callerDir with
    | some c => [taskfile c]
    | none => []
  let sp := chainLoop 6 sp env.cwdChain
  sp ++ [taskfile env.homeDir, taskfile env.packageDir]

/-- The deterministic fallback of `_find_taskfile` when no candidate exists:
the caller-hint directory's Taskfile when the hint is set, else the relative
path `Path("Taskfile.yml")`, whose parent is `Path(".")`, i.e. the cwd. -/
def locator_default (env : SearchEnv) : FPath :=
  match env.callerDir with
  | some c => taskfile c
  | none => ⟨".", "Taskfile.yml"⟩

/-- `TaskfileLauncher._find_taskfile`: first existing candidate of
`search_paths`, else the deterministic fallback. -/
def find_taskfile (env : SearchEnv) : FPath :=
  match (search_paths env).find? env.fsExists with
  | some p => p
  | none => locator_default env

/-- The candidate list printed by `TaskfileLauncher.show_search_info`:
caller-hint entry (if set), then the cwd chain accumulated in a fresh list
bounded to 5 entries, then home, then the package file. -/
def info_paths (env : SearchEnv) : List FPath :=
  (match env.callerDir with
    | some c => [taskfile c]
    | none => []) ++
  chainLoop 5 [] env.cwdChain ++
  [taskfile env.homeDir, taskfile env.packageDir]

/-- `show_search_info` output: each printed candidate together with the
existence flag (`YES` / `NO`) it prints for that candidate. -/
def show_search_info_entries (env : SearchEnv) : List (FPath × Bool) :=
  (info_paths env).map (fun p => (p, env.fsExists p))

/-- The resolution algorithm's candidates paired with the existence flag the
resolution algorithm observes for each of them. -/
def find_candidates_flagged (env : SearchEnv) : List (FPath × Bool) :=
  (search_paths env).map (fun p => (p, env.fsExists p))

/-- The candidate list as claim C1 states it: caller hint, cwd, ancestors up
to 5 levels regardless of the hint, home, package. -/
def claimed_candidates (env : SearchEnv) : List FPath :=
  (match env.callerDir with
    | some c => [taskfile c]
    | none => []) ++
  (env.cwdChain.take 6).map taskfile ++
  [taskfile env.homeDir, taskfile env.packageDir]

/-- The Locator result as claim C1 states it. -/
def claimed_find (env : SearchEnv) : FPath :=
  ((claimed_candidates env).find? env.fsExists).getD (locator_default env)

/-- The candidate list the code actually searches, in closed form: when the
caller hint is set the cwd chain contributes at most 5 entries (cwd plus 4
ancestors), otherwise at most 6 (cwd plus 5 ancestors). -/
def amended_candidates (env : SearchEnv) : List FPath :=
  match env.callerDir with
  | some c =>
    taskfile c :: (env.cwdChain.take 5).map taskfile ++
      [taskfile env.homeDir, taskfile env.packageDir]
  | none =>
    (env.cwdChain.take 6).map taskfile ++
      [taskfile env.homeDir, taskfile env.packageDir]

/-- Task metadata: the optional `prompt` field consulted by the Input
Collector (the only field this core interprets). -/
structure TaskMeta where
  prompt : Option String := none
  deriving DecidableEq, Repr

/-- The in-memory `tasks` mapping: a Python dict modelled as an association
list (insertion-ordered, keys unique in any state reachable from a dict). -/
abbrev Tasks := List (String × TaskMeta)

/-- `task_names = [name for name in self.tasks.keys() if name != 'default']`
in `_select_task`. -/
def task_names (tasks : Tasks) : List String :=
  (tasks.map Prod.fst).filter (fun n => n ≠ "default")

/-- One rendered line of the numbered menu. -/
structure MenuLine where
  idx : Nat
  label : String
  deriving DecidableEq, Repr

/-- The numbered menu printed by `_select_task`: `enumerate(task_names, 1)`
followed by the fixed `0. 退出` exit entry. -/
def select_menu (tasks : Tasks) : List MenuLine :=
  ((task_names tasks).enum.map (fun p => MenuLine.mk (p.1 + 1) p.2)) ++
    [MenuLine.mk 0 "退出"]

/-- The menu as claim C3 states it: the mapping's keys with `"default"`
removed, in order, numbered contiguously from 1, plus the exit entry 0. -/
def claimed_menu (tasks : Tasks) : List MenuLine :=
  let names := (tasks.map Prod.fst).filter (fun n => n ≠ "default")
  ((List.range' 1 names.length).zip names).map (fun p => MenuLine.mk p.1 p.2) ++
    [MenuLine.mk 0 "退出"]

/-- A user response to a `rich` yes/no confirmation (`Confirm.ask`): an
explicit yes, an explicit no, an empty line (which yields the prompt's
default), or an interrupt / end-of-input condition. -/
inductive ConfirmResponse
  | yes
  | no
  | empty
  | interrupt
  | eof
  deriving DecidableEq, Repr

/-- A user response to a free-text `Prompt.ask` with no choice list. -/
inductive TextResponse
  | answered (s : String)
  | interrupt
  | eof
  deriving DecidableEq, Repr

/-- Result of `_get_task_input`: `result = none` models the method returning
Python `None` ("no input collected", interrupt/EOF); `prompted` records
whether any interactive prompt was issued. -/
structure CollectResult where
  result : Option String
  prompted : Bool
  deriving DecidableEq, Repr

/-- Substring test on character lists, modelling Python's
`needle in haystack` for strings. -/
def hasSubstr (needle : List Char) : List Char → Bool
  | [] => needle.isEmpty
  | c :: rest => needle.isPrefixOf (c :: rest) || hasSubstr needle rest

/-- `self.tasks.get(task_name, {})` in `_get_task_input`. -/
def tasks_get (tasks : Tasks) (name : String) : TaskMeta :=
  (tasks.lookup name).getD {}

/-- The modality test of `_get_task_input`: Python's `"y/N" in prompt_text`. -/
def prompt_is_confirm (p : String) : Bool :=
  hasSubstr "y/N".toList p.toList

/-- `TaskfileLauncher._get_task_input`. Python's `if not prompt_text` is the
truthiness test, so an absent prompt and a declared empty-string prompt both
return `""` without prompting. A prompt containing `"y/N"` goes through
`Confirm.ask(default=False)`, mapping yes to `"y"` and no or the empty-line
default to `"n"`; any other prompt goes through a free-text `Prompt.ask`.
Interrupt or end-of-input during either prompt yields `result = none`. -/
def get_task_input (tasks : Tasks) (name : String)
    (confirm : ConfirmResponse) (text : TextResponse) : CollectResult :=
  match (tasks_get tasks name).prompt with
  | none => ⟨some "", false⟩
  | some p =>
    if p = "" then ⟨some "", false⟩
    else if prompt_is_confirm p then
      match confirm with
      | .yes => ⟨some "y", true⟩
      | .no => ⟨some "n", true⟩
      | .empty => ⟨some "n", true⟩
      | .interrupt => ⟨none, true⟩
      | .eof => ⟨none, true⟩
    else
      match text with
      | .answered s => ⟨some s, true⟩
      | .interrupt => ⟨none, true⟩
      | .eof => ⟨none, true⟩

/-- String form of a path, as `str(self.taskfile_path)` renders it. -/
def pathStr (p : FPath) : String := p.dir ++ "/" ++ p.name

/-- The observable shape of one Executor subprocess invocation: the argument
vector, the working directory (`cwd=self.taskfile_path.parent`), and the
value bound to the `CLI_ARGS` environment variable. -/
structure RunInvocation where
  cmd : List String
  cwd : Dir
  cliArgs : String
  deriving DecidableEq, Repr

/-- Command construction of `TaskfileLauncher._run_task`: base command
`['task', '--taskfile', str(path), task_name]`, with the user input appended
exactly when Python finds it truthy (non-empty); the subprocess runs in the
taskfile's parent directory with `CLI_ARGS` set to the input in every case. -/
def run_task_cmd (taskfile_path : FPath) (task_name : String)
    (user_input : String) : RunInvocation :=
  let cmd := ["task", "--taskfile", pathStr taskfile_path, task_name]
  let cmd := if user_input = "" then cmd else cmd ++ [user_input]
  ⟨cmd, taskfile_path.dir, user_input⟩

/-- What happens to the Executor's `subprocess.run` call: normal completion
with an exit code, a KeyboardInterrupt while the child runs, or any other
invocation failure (FileNotFoundError, OSError, ...), which `_run_task`
reports and absorbs. -/
inductive SubprocEvent
  | completed (code : Int)
  | interrupted
  | failed (msg : String)
  deriving DecidableEq, Repr

/-- Exit-code logic of `TaskfileLauncher._run_task`: the child's return code
verbatim, 0 on KeyboardInterrupt, 1 on any other failure. Being a total
function, it also captures that no failure is re-raised to the caller. -/
def run_task_exit (ev : SubprocEvent) : Int :=
  match ev with
  | .completed code => code
  | .interrupted => 0
  | .failed _ => 1

/-- A parsed YAML document (only the shapes `yaml.safe_load` can produce
that this launcher distinguishes). -/
inductive Yaml
  | null
  | str (s : String)
  | num (n : Int)
  | seq (items : List Yaml)
  | map (entries : List (String × Yaml))

/-- `TaskfileLauncher._load_taskfile` after the file has been read: the
argument is `none` when `yaml.safe_load` raises (malformed document) and
`some doc` when the parser accepts the document. `data.get('tasks', {})`
succeeds only when `data` is a mapping; on any other accepted document
(e.g. an empty file, which parses to `None`) the attribute access raises,
the `except` clause reports it, and the process exits 1 (`.error`). -/
def load_taskfile (parsed : Option Yaml) : Except String Yaml :=
  match parsed with
  | none => .error "parse failure"
  | some (Yaml.map entries) => .ok ((entries.lookup "tasks").getD (Yaml.map []))
  | some _ => .error "AttributeError"

/-- State of the definition file on disk, as seen by `_load_taskfile`:
missing (open raises FileNotFoundError), unreadable (open raises OSError),
or readable with the given parse outcome. -/
inductive FileState
  | missing
  | unreadable
  | parsed (doc : Option Yaml)

/-- The whole `_load_taskfile` pipeline over a file state. -/
def load_from (fs : FileState) : Except String Yaml :=
  match fs with
  | .missing => .error "FileNotFoundError"
  | .unreadable => .error "OSError"
  | .parsed doc => load_taskfile doc

/-- A user response at the `_select_task` numbered prompt
(`Prompt.ask(choices=[str(i) for i in range(N + 1)], default="1")`). -/
inductive PromptResponse
  | typed (s : String)
  | empty
  | interrupt
  | eof
  deriving DecidableEq, Repr

/-- The `choices` list passed to `Prompt.ask`: the decimal strings
`"0" .. "N"`. -/
def choice_strings (n : Nat) : List String :=
  (List.range (n + 1)).map (fun i => toString i)

/-- Outcome of one pass through the `while True` body of `_select_task`. -/
inductive SelectStep
  | chosen (name : String)
  | exitMenu
  | fault
  | retry
  deriving DecidableEq, Repr

/-- Value of a decimal digit character. -/
def digit? (c : Char) : Option Nat :=
  if c = '0' then some 0 else if c = '1' then some 1
  else if c = '2' then some 2 else if c = '3' then some 3
  else if c = '4' then some 4 else if c = '5' then some 5
  else if c = '6' then some 6 else if c = '7' then some 7
  else if c = '8' then some 8 else if c = '9' then some 9
  else none

/-- Decimal accumulation over a character list. -/
def str_to_nat_go : List Char → Nat → Option Nat
  | [], acc => some acc
  | c :: rest, acc =>
    match digit? c with
    | some d => str_to_nat_go rest (acc * 10 + d)
    | none => none

/-- Python's `int(...)` on the decimal strings that reach it here. -/
def str_to_nat? (s : String) : Option Nat :=
  match s.toList with
  | [] => none
  | cs => str_to_nat_go cs 0

/-- `if choice == "0": return None` followed by
`return task_names[int(choice) - 1]`; an out-of-range index is the
IndexError the surrounding code does not catch. -/
def decode_choice (names : List String) (s : String) : SelectStep :=
  if s = "0" then .exitMenu
  else
    match names.get? ((str_to_nat? s).getD 0 - 1) with
    | some n => .chosen n
    | none => .fault

/-- One pass through the `_select_task` prompt. Interrupt and end-of-input
are caught and return Python `None` (exit). An empty line makes `rich`'s
`PromptBase` return the supplied default `"1"` verbatim, without validating
it against the `choices` list (validation applies only to typed responses);
a typed response outside `choices` makes `Prompt.ask` re-prompt. -/
def select_step (tasks : Tasks) (r : PromptResponse) : SelectStep :=
  let names := task_names tasks
  match r with
  | .interrupt => .exitMenu
  | .eof => .exitMenu
  | .empty => decode_choice names "1"
  | .typed s =>
    if (choice_strings names.length).contains s then decode_choice names s
    else .retry

/-- Outcome of the whole `_select_task` call over a finite response script;
`exhausted` is the model artifact for a script that ends mid-prompt. -/
inductive SelectOutcome
  | chosen (name : String)
  | exitMenu
  | fault
  | exhausted
  deriving DecidableEq, Repr

/-- `TaskfileLauncher._select_task` driven by a list of responses: re-prompt
(`retry`) consumes the next response. -/
def select_task (tasks : Tasks) : List PromptResponse → SelectOutcome
  | [] => .exhausted
  | r :: rest =>
    match select_step tasks r with
    | .chosen n => .chosen n
    | .exitMenu => .exitMenu
    | .fault => .fault
    | .retry => select_task tasks rest

/-- The user responses one iteration of the `run` loop may consume: the
selection-prompt responses, the confirmation or free-text response for the
input collector, the fate of the Executor's subprocess, and the response to
the continue prompt (`Confirm.ask(default=True)`). Fields an iteration does
not reach are simply unused. -/
structure IterScript where
  selResponses : List PromptResponse
  confirmResp : ConfirmResponse
  textResp : TextResponse
  subprocEvent : SubprocEvent
  contResp : ConfirmResponse
  deriving Repr

/-- The session loop of `TaskfileLauncher.run`, driven by one `IterScript`
per iteration. Returns the process exit code (`none` when the script runs
out, a model artifact) and the list of Executor invocations performed.
A selection fault (IndexError) propagates to `run`'s outer handler, which
returns 1; choosing `0` (or interrupt/EOF at the menu) returns 0; a
collector `None` skips the task and loops back to the menu; after an
execution, a "no" / interrupt / EOF at the continue prompt breaks the loop
and `run` returns 0, while yes or the empty-line default (True) continues. -/
def run_loop (path : FPath) (tasks : Tasks) :
    List IterScript → Option Int × List RunInvocation
  | [] => (none, [])
  | it :: rest =>
    match select_task tasks it.selResponses with
    | .exhausted => (none, [])
    | .fault => (some 1, [])
    | .exitMenu => (some 0, [])
    | .chosen name =>
      match (get_task_input tasks name it.confirmResp it.textResp).result with
      | none => run_loop path tasks rest
      | some input =>
        let inv := run_task_cmd path name input
        match it.contResp with
        | .yes | .empty =>
          let r := run_loop path tasks rest
          (r.1, inv :: r.2)
        | .no | .interrupt | .eof => (some 0, [inv])

/-- Observable outcome of a whole launcher session: exit code (`none` when
the interaction script ran out), whether the task menu was ever presented,
and the Executor invocations performed. -/
structure LaunchResult where
  exitCode : Option Int
  menuShown : Bool
  invocations : List RunInvocation
  deriving Repr

/-- Lift of a loaded `tasks` YAML mapping into the `Tasks` model used by the
interactive loop: every entry must be a mapping whose `prompt` field, when
present, is a string or null (the shapes whose behaviour this model covers).
Other shapes raise at various later points in the Python code; no theorem
below depends on them. -/
def meta_of (v : Yaml) : Option TaskMeta :=
  match v with
  | .map fields =>
    match fields.lookup "prompt" with
    | some (Yaml.str s) => some ⟨some s⟩
    | some Yaml.null => some ⟨none⟩
    | some _ => none
    | none => some ⟨none⟩
  | _ => none

/-- Conversion of the loaded YAML value to the task table, entry by entry. -/
def yaml_tasks (y : Yaml) : Option Tasks :=
  match y with
  | .map entries => entries.mapM (fun e => (meta_of e.2).map (fun m => (e.1, m)))
  | _ => none

/-- Construction plus `run`: `_load_taskfile` runs first (in `__init__`) and
any load failure reports and exits 1 before any menu is rendered; on success
the session loop runs (the `run` method's own existence re-check cannot fire
once the file was successfully opened in this static filesystem model). A
loaded `tasks` value outside the modelled shapes also ends the process with
code 1 via `run`'s outer handler. -/
def launch (path : FPath) (fs : FileState) (script : List IterScript) :
    LaunchResult :=
  match load_from fs with
  | .error _ => ⟨some 1, false, []⟩
  | .ok y =>
    match yaml_tasks y with
    | some tasks =>
      let r := run_loop path tasks script
      ⟨r.1, true, r.2⟩
    | none => ⟨some 1, true, []⟩

/-- Concrete Locator environment for the C1 counterexample: caller hint set,
cwd with five ancestors, and only the fifth ancestor's Taskfile existing. -/
def envC1 : SearchEnv :=
  ⟨some "caller", ["cwd", "p1", "p2", "p3", "p4", "p5"], "home", "pkg",
    fun p => decide (p = taskfile "p5")⟩

/-- Concrete Locator environment for the C2 counterexample: caller hint
unset, cwd with five ancestors. -/
def envC2 : SearchEnv :=
  ⟨none, ["cwd", "p1", "p2", "p3", "p4", "p5"], "home", "pkg",
    fun p => decide (p = taskfile "p5")⟩

/-- Small environment on which the diagnostic and the resolver are applied
concretely. -/
def envSmall : SearchEnv :=
  ⟨some "caller", ["cwd", "p1"], "home", "pkg",
    fun p => decide (p = taskfile "home")⟩

/-- Task table with a declared empty prompt, for the C4 counterexample. -/
def tasksC4 : Tasks := [("t", ⟨some ""⟩)]

/-- Task table used by the collector witnesses: a confirmation task, a
free-text task and a promptless task. -/
def tasksW : Tasks :=
  [("confirm", ⟨some "Delete? y/N"⟩), ("text", ⟨some "Target name?"⟩),
   ("plain", ⟨none⟩)]

/-- Task table whose menu is empty: only the reserved `default` entry. -/
def tasksC10 : Tasks := [("default", ⟨none⟩)]

/-- A concrete resolved path used by loop-level witnesses. -/
def pathW : FPath := taskfile "proj"

/-- Iteration script in which the user picks task 2 (`text`) and then
interrupts the free-text prompt. -/
def itSkip : IterScript :=
  ⟨[PromptResponse.typed "2"], ConfirmResponse.empty, TextResponse.interrupt,
    SubprocEvent.completed 0, ConfirmResponse.empty⟩

/-- Iteration script in which the user answers the selection prompt with an
empty line (accepting the prompt's default). -/
def itDefault : IterScript :=
  ⟨[PromptResponse.empty], ConfirmResponse.empty, TextResponse.eof,
    SubprocEvent.completed 0, ConfirmResponse.empty⟩

/-- A concrete parsed definition document with a `tasks` key. -/
def docW : List (String × Yaml) :=
  [("version", Yaml.str "3"), ("tasks", Yaml.map [("build", Yaml.map [])])]

/-- Closed form of `chainLoop`: starting below the bound, the loop appends
exactly the first `bound - acc.length` chain entries. -/
theorem chainLoop_eq (bound : Nat) (chain : List Dir) :
    ∀ acc : List FPath, acc.length < bound →
      chainLoop bound acc chain
        = acc ++ (chain.take (bound - acc.length)).map taskfile := by
  induction chain with
  | nil =>
    intro acc _
    simp [chainLoop]
  | cons d rest ih =>
    intro acc hacc
    simp only [chainLoop, List.length_append, List.length_cons, List.length_nil]
    by_cases h6 : bound ≤ acc.length + (0 + 1)
    · rw [if_pos h6]
      have hb : bound - acc.length = 1 := by omega
      rw [hb, List.take_succ_cons, List.take_zero, List.map_cons, List.map_nil]
    · rw [if_neg h6]
      have hlen : (acc ++ [taskfile d]).length < bound := by
        simp only [List.length_append, List.length_cons, List.length_nil]
        omega
      rw [ih _ hlen]
      have hb : bound - (acc ++ [taskfile d]).length + 1 = bound - acc.length := by
        simp only [List.length_append, List.length_cons, List.length_nil]
        omega
      rw [← hb, List.take_succ_cons]
      simp

/-- The code's search list coincides with the closed-form amended candidate
list. -/
theorem search_paths_eq_amended (env : SearchEnv) :
    search_paths env = amended_candidates env := by
  unfold search_paths amended_candidates
  cases h : env.callerDir with
  | none =>
    dsimp only
    rw [chainLoop_eq 6 env.cwdChain [] (by simp)]
    simp
  | some c =>
    dsimp only
    rw [chainLoop_eq 6 env.cwdChain [taskfile c] (by simp)]
    simp

/-- Claim C1 counterexample: with the caller hint set and only the fifth
ancestor's Taskfile existing, the claimed order (ancestors bounded to 5
levels in every configuration) picks that ancestor, but the code's bound
counts the caller entry, skips the fifth ancestor, finds nothing, and falls
back to the caller hint's expected path. -/
theorem C1_counterexample :
    claimed_find envC1 = taskfile "p5" ∧
    find_taskfile envC1 = taskfile "caller" ∧
    find_taskfile envC1 ≠ claimed_find envC1 := by decide

/-- Claim C1 (amended): the Locator returns the first existing candidate in
the order caller hint, cwd, ancestors walking upward — 5 ancestor levels
when the hint is unset but only 4 when it is set, because the bound of 6
counts the hint entry — then home, then the package file; when none exists
it returns the caller hint's expected path if the hint is set, else the
relative Taskfile path in the cwd. -/
theorem C1_locator_first_existing (env : SearchEnv) :
    find_taskfile env
      = ((amended_candidates env).find? env.fsExists).getD (locator_default env) := by
  unfold find_taskfile
  rw [search_paths_eq_amended]
  cases h : (amended_candidates env).find? env.fsExists <;> simp

/-- Claim C2 counterexample: with the caller hint unset and a cwd five
ancestors deep, the resolver considers the fifth ancestor but the `--info`
enumeration stops one level earlier, so the two candidate lists (with their
existence flags) differ. -/
theorem C2_counterexample :
    show_search_info_entries envC2 ≠ find_candidates_flagged envC2 := by decide

/-- Claim C2 (amended): whenever the caller hint is set, or the cwd chain
has at most 5 entries (cwd plus at most 4 ancestors), the `--info`
enumeration lists exactly the resolver's candidates, in the same order and
with the same existence flags; with the hint unset and a deeper chain the
resolver considers one more ancestor than the diagnostic lists. -/
theorem C2_info_matches_finder (env : SearchEnv)
    (h : env.callerDir.isSome = true ∨ env.cwdChain.length ≤ 5) :
    show_search_info_entries env = find_candidates_flagged env := by
  unfold show_search_info_entries find_candidates_flagged
  congr 1
  unfold info_paths search_paths
  rcases h with h | h
  · obtain ⟨c, hc⟩ := Option.isSome_iff_exists.mp h
    rw [hc]
    dsimp only
    rw [chainLoop_eq 6 env.cwdChain [taskfile c] (by simp),
      chainLoop_eq 5 env.cwdChain [] (by simp)]
    simp
  · cases hc : env.callerDir with
    | some c =>
      dsimp only
      rw [chainLoop_eq 6 env.cwdChain [taskfile c] (by simp),
        chainLoop_eq 5 env.cwdChain [] (by simp)]
      simp
    | none =>
      dsimp only
      rw [chainLoop_eq 6 env.cwdChain [] (by simp),
        chainLoop_eq 5 env.cwdChain [] (by simp)]
      have h6 : env.cwdChain.take (6 - ([] : List FPath).length) = env.cwdChain := by
        apply List.take_of_length_le
        simp
        omega
      have h5 : env.cwdChain.take (5 - ([] : List FPath).length) = env.cwdChain := by
        apply List.take_of_length_le
        simp
        omega
      rw [h6, h5]
      simp

/-- Witness for C2: a concrete environment with the caller hint set, on
which the diagnostic and the resolver agree. -/
theorem C2_info_matches_finder_witness :
    envSmall.callerDir.isSome = true ∧
    show_search_info_entries envSmall = find_candidates_flagged envSmall :=
  ⟨rfl, C2_info_matches_finder envSmall (Or.inl rfl)⟩

/-- The 1-based enumeration of a list coincides with zipping it against the
contiguous range starting at 1 (generalised over the start index). -/
theorem enumFrom_menu (l : List String) :
    ∀ s : Nat, (l.enumFrom s).map (fun p => MenuLine.mk (p.1 + 1) p.2)
      = ((List.range' (s + 1) l.length).zip l).map
          (fun p => MenuLine.mk p.1 p.2) := by
  induction l with
  | nil => intro s; rfl
  | cons a t ih =>
    intro s
    have h := ih (s + 1)
    simp only [List.enumFrom, List.length_cons, List.range', List.zip_cons_cons,
      List.map_cons] at h ⊢
    rw [h]

/-- Claim C3: the numbered menu of the SELECTING state is exactly the task
mapping's keys with `"default"` removed, in first-appearance order (the
keys of a dict are unique), numbered contiguously from 1, plus the
always-present exit entry numbered 0. -/
theorem C3_menu (tasks : Tasks) (_hnd : (tasks.map Prod.fst).Nodup) :
    select_menu tasks = claimed_menu tasks := by
  unfold select_menu claimed_menu task_names
  dsimp only
  congr 1
  have h := enumFrom_menu ((tasks.map Prod.fst).filter (fun n => n ≠ "default")) 0
  simpa [List.enum] using h

/-- Witness for C3: the concrete three-task table (with unique keys). -/
theorem C3_menu_witness :
    (tasksW.map Prod.fst).Nodup ∧ select_menu tasksW = claimed_menu tasksW :=
  ⟨by decide, C3_menu tasksW (by decide)⟩

/-- Claim C4 counterexample: the task `t` declares the prompt `""` (a
declared prompt not containing `y/N`), yet with the text answer `"hello"`
the collector returns `""` without prompting instead of the raw entered
text — Python's falsiness test conflates an empty declared prompt with an
absent one. -/
theorem C4_counterexample :
    (tasks_get tasksC4 "t").prompt = some "" ∧
    prompt_is_confirm "" = false ∧
    get_task_input tasksC4 "t" ConfirmResponse.empty (TextResponse.answered "hello")
      = ⟨some "", false⟩ ∧
    (⟨some "", false⟩ : CollectResult) ≠ ⟨some "hello", true⟩ := by decide

/-- Claim C4 (amended): a prompt containing `y/N` yields exactly `"y"` on
yes and exactly `"n"` on no or on the empty-line default; a task with no
declared prompt — or with a declared empty prompt, which the code treats
the same — yields `""` without prompting; any other (non-empty) declared
prompt yields the raw entered text; interrupt or end-of-input during either
prompt yields no collected input. -/
theorem C4_collector (tasks : Tasks) (name : String)
    (c : ConfirmResponse) (t : TextResponse) :
    (((tasks_get tasks name).prompt = none ∨ (tasks_get tasks name).prompt = some "") →
      get_task_input tasks name c t = ⟨some "", false⟩) ∧
    (∀ p, (tasks_get tasks name).prompt = some p → p ≠ "" →
      prompt_is_confirm p = true →
      (c = ConfirmResponse.yes → get_task_input tasks name c t = ⟨some "y", true⟩) ∧
      ((c = ConfirmResponse.no ∨ c = ConfirmResponse.empty) →
        get_task_input tasks name c t = ⟨some "n", true⟩) ∧
      ((c = ConfirmResponse.interrupt ∨ c = ConfirmResponse.eof) →
        get_task_input tasks name c t = ⟨none, true⟩)) ∧
    (∀ p, (tasks_get tasks name).prompt = some p → p ≠ "" →
      prompt_is_confirm p = false →
      (∀ s, t = TextResponse.answered s →
        get_task_input tasks name c t = ⟨some s, true⟩) ∧
      ((t = TextResponse.interrupt ∨ t = TextResponse.eof) →
        get_task_input tasks name c t = ⟨none, true⟩)) := by
  refine ⟨?_, ?_, ?_⟩
  · rintro (h | h) <;> simp [get_task_input, h]
  · intro p hp hne hy
    refine ⟨?_, ?_, ?_⟩
    · rintro rfl
      simp [get_task_input, hp, hne, hy]
    · rintro (rfl | rfl) <;> simp [get_task_input, hp, hne, hy]
    · rintro (rfl | rfl) <;> simp [get_task_input, hp, hne, hy]
  · intro p hp hne hy
    refine ⟨?_, ?_⟩
    · rintro s rfl
      simp [get_task_input, hp, hne, hy]
    · rintro (rfl | rfl) <;> simp [get_task_input, hp, hne, hy]

/-- Witness for C4: the concrete table `tasksW`, exercising the yes answer
on the `y/N` task, the raw text answer on the free-text task, and the
promptless task. -/
theorem C4_collector_witness :
    (tasks_get tasksW "confirm").prompt = some "Delete? y/N" ∧
    get_task_input tasksW "confirm" ConfirmResponse.yes (TextResponse.answered "x")
      = ⟨some "y", true⟩ ∧
    get_task_input tasksW "text" ConfirmResponse.empty (TextResponse.answered "dist")
      = ⟨some "dist", true⟩ ∧
    get_task_input tasksW "plain" ConfirmResponse.empty (TextResponse.answered "x")
      = ⟨some "", false⟩ :=
  ⟨rfl,
    ((C4_collector tasksW "confirm" ConfirmResponse.yes (TextResponse.answered "x")).2.1
      "Delete? y/N" rfl (by decide) (by decide)).1 rfl,
    ((C4_collector tasksW "text" ConfirmResponse.empty (TextResponse.answered "dist")).2.2
      "Target name?" rfl (by decide) (by decide)).1 "dist" rfl,
    (C4_collector tasksW "plain" ConfirmResponse.empty (TextResponse.answered "x")).1
      (Or.inl rfl)⟩

/-- Claim C5: the Executor invokes the runner as
`[task, --taskfile, path, task-name]` with the input appended as a trailing
positional argument exactly when it is non-empty, runs the subprocess in the
resolved path's parent directory, and sets `CLI_ARGS` to the input string in
every invocation. -/
theorem C5_executor_invocation (path : FPath) (name input : String) :
    (input = "" → (run_task_cmd path name input).cmd
      = ["task", "--taskfile", pathStr path, name]) ∧
    (input ≠ "" → (run_task_cmd path name input).cmd
      = ["task", "--taskfile", pathStr path, name, input]) ∧
    (run_task_cmd path name input).cwd = path.dir ∧
    (run_task_cmd path name input).cliArgs = input := by
  refine ⟨?_, ?_, rfl, rfl⟩ <;> intro h <;> simp [run_task_cmd, h]

/-- Witness for C5: a concrete invocation with empty and non-empty input. -/
theorem C5_executor_invocation_witness :
    (run_task_cmd pathW "build" "").cmd
      = ["task", "--taskfile", pathStr pathW, "build"] ∧
    ("dist" : String) ≠ "" ∧
    (run_task_cmd pathW "build" "dist").cmd
      = ["task", "--taskfile", pathStr pathW, "build", "dist"] ∧
    (run_task_cmd pathW "build" "dist").cwd = "proj" ∧
    (run_task_cmd pathW "build" "dist").cliArgs = "dist" :=
  ⟨(C5_executor_invocation pathW "build" "").1 rfl, by decide,
    (C5_executor_invocation pathW "build" "dist").2.1 (by decide),
    (C5_executor_invocation pathW "build" "dist").2.2.1,
    (C5_executor_invocation pathW "build" "dist").2.2.2⟩

/-- Claim C6: the Executor returns the subprocess exit code verbatim on
completion, 0 on an interrupt received while the subprocess runs, and 1 on
any other invocation failure; `run_task_exit` being a total function on
events captures that failures are absorbed, not re-raised. -/
theorem C6_executor_exit (c : Int) (m : String) :
    run_task_exit (SubprocEvent.completed c) = c ∧
    run_task_exit SubprocEvent.interrupted = 0 ∧
    run_task_exit (SubprocEvent.failed m) = 1 :=
  ⟨rfl, rfl, rfl⟩

/-- Claim C7 counterexample: the empty document is accepted by the YAML
parser (it parses to null), the top-level key `tasks` is absent, yet
loading fails (the attribute access on a non-mapping raises and the process
exits 1) instead of producing an empty mapping. -/
theorem C7_counterexample :
    load_taskfile (some Yaml.null) = Except.error "AttributeError" ∧
    ∀ v : Yaml, load_taskfile (some Yaml.null) ≠ Except.ok v :=
  ⟨rfl, fun _ h => nomatch h⟩

/-- Claim C7 (amended): for every accepted document whose top level is a
mapping, the loader produces the value under the top-level key `tasks`, and
when that key is absent the result is an empty mapping and loading does not
fail; an accepted document whose top level is not a mapping (such as the
empty document) is a fatal load error. -/
theorem C7_loader (entries : List (String × Yaml)) :
    (∀ v, entries.lookup "tasks" = some v →
      load_taskfile (some (Yaml.map entries)) = Except.ok v) ∧
    (entries.lookup "tasks" = none →
      load_taskfile (some (Yaml.map entries)) = Except.ok (Yaml.map [])) := by
  constructor
  · intro v hv
    simp [load_taskfile, hv]
  · intro hn
    simp [load_taskfile, hn]

/-- Witness for C7: a concrete document with a `tasks` key, and one
without. -/
theorem C7_loader_witness :
    docW.lookup "tasks" = some (Yaml.map [("build", Yaml.map [])]) ∧
    load_taskfile (some (Yaml.map docW))
      = Except.ok (Yaml.map [("build", Yaml.map [])]) ∧
    ([("version", Yaml.str "3")].lookup "tasks" = (none : Option Yaml)) ∧
    load_taskfile (some (Yaml.map [("version", Yaml.str "3")]))
      = Except.ok (Yaml.map []) :=
  ⟨rfl, (C7_loader docW).1 _ rfl, rfl,
    (C7_loader [("version", Yaml.str "3")]).2 rfl⟩

/-- Claim C8: a missing, unreadable or malformed definition file is fatal:
the process exits with code 1, no menu is presented and no subprocess is
invoked, for every interaction script (no retry, no degraded mode). -/
theorem C8_fatal_load (path : FPath) (script : List IterScript) (fs : FileState)
    (h : fs = FileState.missing ∨ fs = FileState.unreadable ∨
      fs = FileState.parsed none) :
    launch path fs script = ⟨some 1, false, []⟩ := by
  rcases h with h | h | h <;> subst h <;> rfl

/-- Witness for C8: the missing-file state with a nonempty script. -/
theorem C8_fatal_load_witness :
    launch pathW FileState.missing [itDefault] = ⟨some 1, false, []⟩ :=
  C8_fatal_load pathW [itDefault] FileState.missing (Or.inl rfl)

/-- Claim C9: when the Input Collector reports no input collected
(interrupt or end-of-input during the prompt), the session loop proceeds to
the next SELECTING pass exactly as if the iteration had not happened — in
particular no Executor invocation is recorded for it; and whenever the
collector does return a value, the Executor invocation for the chosen task
and that value is performed. -/
theorem C9_skip_on_no_input (path : FPath) (tasks : Tasks) (it : IterScript)
    (rest : List IterScript) (name : String)
    (hsel : select_task tasks it.selResponses = SelectOutcome.chosen name) :
    ((get_task_input tasks name it.confirmResp it.textResp).result = none →
      run_loop path tasks (it :: rest) = run_loop path tasks rest) ∧
    (∀ input,
      (get_task_input tasks name it.confirmResp it.textResp).result = some input →
      (run_loop path tasks (it :: rest)).2.head?
        = some (run_task_cmd path name input)) := by
  constructor
  · intro hnone
    simp [run_loop, hsel, hnone]
  · intro input hsome
    cases hc : it.contResp <;> simp [run_loop, hsel, hsome, hc]

/-- Witness for C9: the user picks the free-text task `text` and interrupts
its prompt; the loop state is the same as if the iteration were absent. -/
theorem C9_skip_on_no_input_witness :
    select_task tasksW itSkip.selResponses = SelectOutcome.chosen "text" ∧
    (get_task_input tasksW "text" itSkip.confirmResp itSkip.textResp).result
      = none ∧
    run_loop pathW tasksW [itSkip] = run_loop pathW tasksW [] :=
  ⟨by decide, by decide,
    (C9_skip_on_no_input pathW tasksW itSkip [] "text" (by decide)).1 (by decide)⟩

/-- Claim C10 at its failing input: with a task table containing only the
reserved `default` entry the menu is empty (N = 0) and the only choice the
prompt validates is `"0"`; but an empty response makes `rich` return the
prompt's default `"1"` without validation, and `task_names[0]` on the empty
list is the IndexError that `run`'s outer handler turns into exit code 1. -/
theorem C10_empty_menu_default_faults :
    task_names tasksC10 = [] ∧
    choice_strings (task_names tasksC10).length = ["0"] ∧
    select_step tasksC10 PromptResponse.empty = SelectStep.fault ∧
    select_task tasksC10 itDefault.selResponses = SelectOutcome.fault ∧
    run_loop pathW tasksC10 [itDefault] = (some 1, []) := by decide

end LaTa
